import Mathlib

/-!
Verification development for the iot-access-control-gates-rpi repository.

The repository has two programs:
- server.py: a decision service bridging MQTT requests to an upstream
  HTTP access-decision API (class Server);
- gate.py: a Raspberry Pi access gate publishing requests over MQTT and
  waiting for decisions with a 5 second timeout (class AccessGate).

We shallowly embed the message-handling and decision-mapping logic of both
programs. Network and hardware effects are abstracted as explicit inputs:
the result of the single upstream HTTP call is an input to the decision
mapper, and MQTT message deliveries to the gate are an explicit schedule.
All definitions are total Lean functions, which models the requirement
that the handlers never raise: every Python exception path in the source
is represented by an explicit constructor or branch.
-/

namespace IotGate

/-! ### Server side: data model (server.py)

An inbound request payload is the result of json.loads on the request
topic. The code accesses it only through payload.get, which raises
AttributeError when the parsed JSON value is not an object; that path is
the `nonDict` constructor and lands in the outer except branch of
Server.get_access_decision. For an object we record the three fields the
code reads, each possibly absent. -/

/-- The three fields Server.get_access_decision reads from an object
payload, each of which payload.get may report as absent (None). -/
structure ReqDict where
  rfid : Option String
  gate_id : Option String
  direction : Option String
deriving DecidableEq, Repr

/-- A successfully json-decoded request payload: either a JSON object or
some other JSON value, on which payload.get raises. -/
inductive PayloadJson where
  | dict (d : ReqDict)
  | nonDict
deriving DecidableEq, Repr

/-- The error field of the upstream response body, as the code reads it:
resp_json.get("error", \x7b\x7d) followed by .get("code"/"message", default).
`missing` is an absent error key (the \x7b\x7d default), `nonDict` an error
value that is not an object (the inner .get raises AttributeError), and
`dict` an object with possibly absent code and message. -/
inductive ErrField where
  | missing
  | nonDict
  | dict (code : Option String) (message : Option String)
deriving DecidableEq, Repr

/-- The body of an upstream HTTP response as seen through response.json():
`invalidJson` raises json.JSONDecodeError (the code substitutes \x7b\x7d),
`nonDict` decodes to a non-object (resp_json.get raises later), `dict`
decodes to an object whose error field is as recorded. -/
inductive RespBody where
  | invalidJson
  | nonDict
  | dict (error : ErrField)
deriving DecidableEq, Repr

/-- The result of the single requests.post call in Server.get_access_decision:
either a transport failure (requests.exceptions.RequestException, which
includes connect errors and the 5 second timeout), or an HTTP response with
a status code and a body. -/
inductive UpstreamResult where
  | netFail (e : String)
  | http (status : Nat) (body : RespBody)
deriving DecidableEq, Repr

/-- The AccessOutcome dictionaries Server.get_access_decision returns.
`none` in an Option field means the key is absent from the dictionary
(or, for gate_id, present with value None, which serializes to null and
carries the same information: no gate identifier). -/
structure AccessOutcome where
  status : String
  reason : Option String
  message : Option String
  debug : Option String
  gate_id : Option String
deriving DecidableEq, Repr

/-- One call to the upstream API: the json body requests.post sends
(rfid, gateIdentifier, direction) plus the timeout argument in seconds. -/
structure ApiCall where
  rfid : String
  gateIdentifier : Option String
  direction : String
  timeout : Nat
deriving DecidableEq, Repr

/-- Python str() applied to payload.get("rfid"): the string itself when
present, the text "None" when the field is absent. -/
def pyStr : Option String → String
  | some s => s
  | none => "None"

/-- Python truthiness of an optional string, as tested by `if gate_id:` in
the except branch of Server.get_access_decision: false for None and for
the empty string. -/
def truthy : Option String → Bool
  | some s => s ≠ ""
  | none => false

/-- The outcome built in the outer except branch of
Server.get_access_decision: status ERROR, reason SERVER_ERROR, and the
gate_id key added only when the recovered gate identifier is truthy. -/
def serverErrorOutcome (gid : Option String) : AccessOutcome :=
  { status := "ERROR", reason := some "SERVER_ERROR", message := none,
    debug := none, gate_id := if truthy gid then gid else none }

/-- The if/elif chain of Server.get_access_decision over the extracted
error code (error_code) and message (error_msg), for a non-200 response. -/
def classify_error_code (code : String) (msg : String) (gid : Option String) :
    AccessOutcome :=
  if code = "USER_BANNED" then
    { status := "DENIED", reason := some "BANNED", message := none,
      debug := none, gate_id := gid }
  else if code = "USER_ALREADY_IN" ∨ code = "USER_ALREADY_OUT" then
    { status := "DENIED", reason := some "DIRECTION_ERROR", message := none,
      debug := none, gate_id := gid }
  else if code = "GATE_INACTIVE" then
    { status := "ERROR", reason := some "GATE_LOCKED", message := none,
      debug := none, gate_id := gid }
  else
    { status := "DENIED", reason := some "UNKNOWN", message := none,
      debug := some msg, gate_id := gid }

/-- Server.get_access_decision (server.py lines 27-78), with the upstream
call result passed in explicitly. Returns the AccessOutcome the function
returns together with the list of upstream API calls it issued, so that
call multiplicity is part of the model. Every Python exception path is a
branch: a non-object payload makes payload.get raise before the call (the
outer except returns SERVER_ERROR and no call was made); a non-object
response body or error field makes resp_json.get raise after the call
(the outer except returns SERVER_ERROR, one call was made). -/
def get_access_decision (payload : PayloadJson) (up : UpstreamResult) :
    AccessOutcome × List ApiCall :=
  match payload with
  | .nonDict => (serverErrorOutcome none, [])
  | .dict d =>
    let direction := d.direction.getD "in"
    let gid := d.gate_id
    let call : ApiCall :=
      { rfid := pyStr d.rfid, gateIdentifier := gid,
        direction := direction, timeout := 5 }
    match up with
    | .netFail e =>
      ({ status := "ERROR", reason := some "NETWORK_FAIL", message := none,
         debug := some e, gate_id := gid }, [call])
    | .http status body =>
      if status = 200 then
        ({ status := "GRANTED", reason := none,
           message := some "Access Granted", debug := none,
           gate_id := gid }, [call])
      else
        match body with
        | .invalidJson => (classify_error_code "UNKNOWN" "Unknown error" gid, [call])
        | .nonDict => (serverErrorOutcome gid, [call])
        | .dict .missing => (classify_error_code "UNKNOWN" "Unknown error" gid, [call])
        | .dict .nonDict => (serverErrorOutcome gid, [call])
        | .dict (.dict code msg) =>
          (classify_error_code (code.getD "UNKNOWN") (msg.getD "Unknown error") gid, [call])

/-- The (status, reason) projection of the outcome of
Server.get_access_decision, the part the decision table of the spec fixes. -/
def outSR (payload : PayloadJson) (up : UpstreamResult) : String × Option String :=
  ((get_access_decision payload up).1.status, (get_access_decision payload up).1.reason)

/-- The raw bytes arriving on the request topic, as Server.on_message sees
them: either not valid JSON (json.loads raises, the message is dropped) or
a decoded payload. -/
inductive RawPayload where
  | invalidJson
  | json (p : PayloadJson)
deriving DecidableEq, Repr

/-- Server.on_message (server.py lines 85-103): the list of response
payloads published for one inbound message. Invalid JSON is caught by the
except json.JSONDecodeError branch, logged, and nothing is published;
otherwise exactly the decision for the payload is published. -/
def server_on_message (raw : RawPayload) (up : UpstreamResult) :
    List AccessOutcome :=
  match raw with
  | .invalidJson => []
  | .json p => [(get_access_decision p up).1]

/-! ### Gate side: data model (gate.py)

The AccessGate state machine of the spec is implicit in gate.py: the one
piece of control state shared with the MQTT listener thread is the boolean
self.waiting_for_server. We record in addition the sequence of
(status, reason) pairs passed to AccessGate.handle_result: each entry
models one transition to RESULT_DISPLAY carrying that outcome.

The gate runs two threads: the foreground loop of AccessGate.start and
the paho listener thread started by loop_start, which runs
_on_mqtt_message. gate.py clears waiting_for_server only at the end of
handle_result (line 160), after the 3 second dwell of line 159, so the
flag stays true for seconds after the gate has already entered
RESULT_DISPLAY. We therefore use two models:

- a sequential model (GateState, handle_result, process_access below) in
  which one thread runs at a time and handle_result is a single step that
  records the outcome and clears the flag. This abstraction is faithful
  only for executions in which no message is delivered while a
  handle_result is in progress, which is exactly the scenario of the
  timeout claim (no message from the service at all);
- a fine-grained interleaving model (SysState, fgStep, liStep below) in
  which recording the outcome, the dwell, and the flag clear of
  handle_result are separate atomic steps, and the two threads interleave
  under an explicit schedule. This model exhibits the executions the
  sequential model hides. -/

/-- The mutable gate state relevant to the exchange protocol:
waiting_for_server is the flag from AccessGate.__init__, and results
records, in order, every outcome handed to AccessGate.handle_result
(status as read from the payload, so possibly absent, and reason with the
Python default ""). -/
structure GateState where
  waiting_for_server : Bool
  results : List (Option String × String)
deriving DecidableEq, Repr

/-- A message delivered on the response topic as AccessGate._on_mqtt_message
decodes it: `malformed` covers every payload on which json.loads or .get
raises (invalid JSON or a non-object), caught by the except branch;
`parsed` is an object with the optional status and reason fields read via
payload.get. -/
inductive InMsg where
  | malformed
  | parsed (status : Option String) (reason : Option String)
deriving DecidableEq, Repr

/-- AccessGate.handle_result (gate.py lines 138-160) in the sequential
model: renders feedback for the outcome (modelled by appending it to
results, one entry per RESULT_DISPLAY transition) and clears
waiting_for_server, as one atomic step. In gate.py the clear happens only
after the 3 second dwell; the interleaving model below separates the two. -/
def handle_result (st : GateState) (status : Option String) (reason : String) :
    GateState :=
  { waiting_for_server := false, results := st.results ++ [(status, reason)] }

/-- The reason-to-message table embedded in the non-GRANTED branch of
AccessGate.handle_result (gate.py lines 148-153). -/
def reasonMessage (reason : String) : String :=
  if reason = "BANNED" then "USER BANNED"
  else if reason = "DIRECTION_ERROR" then "ALREADY IN/OUT"
  else "ACCESS DENIED"

/-- The two display lines AccessGate.handle_result draws for an outcome:
the GRANTED branch shows a welcome, everything else shows the
reason-mapped message over the raw reason. -/
def render (status : Option String) (reason : String) : String × String :=
  if status = some "GRANTED" then ("ACCESS GRANTED", "Welcome!")
  else (reasonMessage reason, reason)

/-- AccessGate._on_mqtt_message (gate.py lines 168-174): a malformed
payload raises inside the try and is only logged; a decoded payload is
handed to handle_result exactly when waiting_for_server is set, with
reason defaulted to "" by payload.get, and is otherwise discarded. -/
def on_mqtt_message (st : GateState) (m : InMsg) : GateState :=
  match m with
  | .malformed => st
  | .parsed s r =>
    if st.waiting_for_server then handle_result st s (r.getD "") else st

/-- Delivery of a batch of response-topic messages to the gate, in order. -/
def deliverAll (st : GateState) (ms : List InMsg) : GateState :=
  ms.foldl on_mqtt_message st

/-- The wait loop of AccessGate.process_access (gate.py lines 129-132):
while waiting_for_server and timeout < 50, sleep 0.1 s. `sched cnt` is the
batch of messages the MQTT listener delivers during sleep number cnt, and
`remaining` counts the loop iterations still allowed (50 minus the Python
counter), making the recursion structural. -/
def waitTicks (sched : Nat → List InMsg) : GateState → Nat → Nat → GateState
  | st, _, 0 => st
  | st, cnt, n + 1 =>
    if st.waiting_for_server then
      waitTicks sched (deliverAll st (sched cnt)) (cnt + 1) n
    else st

/-- The AccessRequest payload AccessGate.process_access publishes on the
request topic. -/
structure AccessRequest where
  rfid : Nat
  gate_id : Option String
  direction : String
deriving DecidableEq, Repr

/-- AccessGate.process_access (gate.py lines 115-136): set
waiting_for_server, publish the request, run the 50-tick (5 second) wait
loop, and if the flag is still set afterwards synthesize the local
timeout outcome via handle_result("ERROR", "Timeout"). Returns the
published request together with the final gate state. -/
def process_access (st : GateState) (rfid : Nat) (gate_id : Option String)
    (direction : String) (sched : Nat → List InMsg) :
    AccessRequest × GateState :=
  let stw := waitTicks sched { st with waiting_for_server := true } 0 50
  ({ rfid := rfid, gate_id := gate_id, direction := direction },
   if stw.waiting_for_server then handle_result stw (some "ERROR") "Timeout" else stw)

/-! ### Gate side: fine-grained interleaving model

The atomic steps of AccessGate.handle_result (gate.py lines 138-160):
the render block (lines 140-157, which prints, draws the RESULT_DISPLAY
screen, sets the LEDs and plays the tone), the 3 second dwell
(time.sleep(3), line 159), and the flag clear
(self.waiting_for_server = False, line 160). Either thread can be inside
a handle_result; the phase records what it does next. -/

/-- Remaining work of a handle_result call in progress: doRender is the
render block of lines 140-157 carrying the outcome it will record,
doDwell the 3 second sleep of line 159, doClear the flag clear of
line 160. -/
inductive HrPhase where
  | doRender (status : Option String) (reason : String)
  | doDwell
  | doClear
deriving DecidableEq, Repr

/-- One atomic handle_result step on the shared state, returning the next
phase, or none when handle_result returns. -/
def hrStep (waiting : Bool) (results : List (Option String × String)) :
    HrPhase → (Bool × List (Option String × String)) × Option HrPhase
  | .doRender s r => ((waiting, results ++ [(s, r)]), some .doDwell)
  | .doDwell => ((waiting, results), some .doClear)
  | .doClear => ((false, results), none)

/-- Control state of the foreground thread of AccessGate.start inside one
card iteration: enterExchange is about to run line 117
(self.waiting_for_server = True, then display, publish); poll cnt is the
wait loop of lines 129-132 with the Python counter at cnt; timeoutCheck
is the if of line 134; inHR runs the handle_result call of line 136;
idleLoop is back at the top of the while self.running loop (the
IDLE display of lines 187-188), after process_access returned or after
the except of lines 207-208 caught an exception. -/
inductive FgCtl where
  | enterExchange
  | poll (cnt : Nat)
  | timeoutCheck
  | inHR (h : HrPhase)
  | idleLoop
deriving DecidableEq, Repr

/-- Control state of the paho listener thread: idle between messages, or
inside the handle_result call of gate.py line 172. -/
inductive LiCtl where
  | idle
  | inHR (h : HrPhase)
deriving DecidableEq, Repr

/-- The whole gate process: the shared flag and recorded outcomes, the
two thread control states, and the response-topic messages delivered by
the broker but not yet picked up by the listener. -/
structure SysState where
  waiting_for_server : Bool
  results : List (Option String × String)
  fg : FgCtl
  li : LiCtl
  pending : List InMsg
deriving DecidableEq, Repr

/-- One atomic step of the foreground thread. enterExchange executes
line 117 and enters the poll loop; poll re-checks the condition of
line 130 (waiting_for_server and timeout < 50) and sleeps one 0.1 s tick;
timeoutCheck executes line 134 and, with the flag still set, starts the
handle_result("ERROR", "Timeout") of line 136; inHR advances that call
one step; from idleLoop the thread only redraws the IDLE screen. -/
def fgStep (st : SysState) : SysState :=
  match st.fg with
  | .enterExchange => { st with waiting_for_server := true, fg := .poll 0 }
  | .poll cnt =>
    if st.waiting_for_server ∧ cnt < 50 then { st with fg := .poll (cnt + 1) }
    else { st with fg := .timeoutCheck }
  | .timeoutCheck =>
    if st.waiting_for_server then
      { st with fg := .inHR (.doRender (some "ERROR") "Timeout") }
    else { st with fg := .idleLoop }
  | .inHR h =>
    match hrStep st.waiting_for_server st.results h with
    | ((w, res), some h2) =>
      { st with waiting_for_server := w, results := res, fg := .inHR h2 }
    | ((w, res), none) =>
      { st with waiting_for_server := w, results := res, fg := .idleLoop }
  | .idleLoop => st

/-- One atomic step of the listener thread. When idle it picks up the
next delivered message and runs _on_mqtt_message (gate.py lines 168-174):
a malformed payload raises and is only logged; a decoded payload is
checked against waiting_for_server (line 171) and either starts a
handle_result with the reason defaulted to "" (line 172) or is dropped.
When inside a handle_result it advances that call one step. -/
def liStep (st : SysState) : SysState :=
  match st.li with
  | .idle =>
    match st.pending with
    | [] => st
    | .malformed :: rest => { st with pending := rest }
    | .parsed s r :: rest =>
      if st.waiting_for_server then
        { st with pending := rest, li := .inHR (.doRender s (r.getD "")) }
      else { st with pending := rest }
  | .inHR h =>
    match hrStep st.waiting_for_server st.results h with
    | ((w, res), some h2) =>
      { st with waiting_for_server := w, results := res, li := .inHR h2 }
    | ((w, res), none) =>
      { st with waiting_for_server := w, results := res, li := .idle }

/-- One scheduling choice: run one foreground step, run one listener
step, let the broker deliver one message on the response topic, or raise
an exception in the foreground thread. fgRaise models an exception
thrown anywhere inside the iteration body of AccessGate.start after the
exchange began (for example in update_display at line 118 or publish at
line 126): it propagates out of process_access to the except of lines
207-208, which logs it, so the foreground thread lands back at the top
of the while loop with no other state change. -/
inductive Sched where
  | fgStep
  | liStep
  | deliver (m : InMsg)
  | fgRaise
deriving DecidableEq, Repr

/-- Run the interleaving under an explicit schedule. The schedule stands
for real time: each foreground poll step is 0.1 s and the dwell phase of
a handle_result lasts 3 s, so a phase persists across many steps of the
other thread. -/
def runSched (st : SysState) : List Sched → SysState
  | [] => st
  | c :: cs =>
    runSched
      (match c with
       | .fgStep => fgStep st
       | .liStep => liStep st
       | .deliver m => { st with pending := st.pending ++ [m] }
       | .fgRaise => { st with fg := .idleLoop })
      cs

/-- The gate at the moment a card was read and a direction chosen: no
outcome recorded yet, the foreground thread about to start the exchange
at gate.py line 117, the listener idle, nothing in flight. -/
def exchangeStart : SysState :=
  { waiting_for_server := false, results := [], fg := .enterExchange,
    li := .idle, pending := [] }

/-- Schedule refuting the at-most-one-outcome invariant, with real-time
annotations: the exchange starts; 25 poll ticks pass (2.5 s); the service
reply GRANTED is delivered and the listener picks it up (the line 171
check passes) and renders it, entering the 3 s dwell that ends at about
5.6 s; the foreground polls through tick 50 (5.0 s) with the flag still
true, leaves the loop, passes the line 134 check (flag still true) and
renders the synthesized Timeout outcome as well. -/
def doubleOutcomeSched : List Sched :=
  [.fgStep] ++ List.replicate 25 .fgStep
    ++ [.deliver (.parsed (some "GRANTED") none)]
    ++ [.liStep, .liStep]
    ++ List.replicate 25 .fgStep
    ++ [.fgStep, .fgStep, .fgStep]

/-- Schedule refuting the late-arrival discard: no delivery during the
5 s window; the timeout fires and the foreground renders the Timeout
outcome, entering RESULT_DISPLAY with the flag still true until the
dwell ends at about 8.6 s; the late service reply (the canonical case:
the NETWORK_FAIL outcome the service produces when its own 5 s upstream
timeout fires) is delivered at about 5.1 s and the listener passes the
line 171 check and renders it too. -/
def lateArrivalSched : List Sched :=
  [.fgStep] ++ List.replicate 50 .fgStep
    ++ [.fgStep, .fgStep, .fgStep]
    ++ [.deliver (.parsed (some "ERROR") (some "NETWORK_FAIL"))]
    ++ [.liStep, .liStep]

/-- Schedule showing the loop-boundary catch leaving the flag set: the
exchange begins (flag set at line 117), an exception is raised before
the wait loop (for example in update_display at line 118) and caught at
lines 207-208, the foreground resumes the IDLE loop; a stray broadcast
response (the response topic is shared by every gate) is then delivered
and, the flag never having been reset, the listener handles it from
IDLE. -/
def errorLeakSched : List Sched :=
  [.fgStep, .fgRaise]
    ++ [.deliver (.parsed (some "GRANTED") none)]
    ++ [.liStep, .liStep]

/-! ### Helper lemmas -/

/-- With no deliveries scheduled, the wait loop changes nothing. -/
lemma waitTicks_empty_sched (sched : Nat → List InMsg)
    (hs : ∀ k, sched k = []) :
    ∀ (n cnt : Nat) (st : GateState), waitTicks sched st cnt n = st := by
  intro n
  induction n with
  | zero => intro cnt st; rfl
  | succ n ih =>
    intro cnt st
    by_cases h : st.waiting_for_server = true
    · rw [waitTicks, if_pos h]
      have hd : deliverAll st (sched cnt) = st := by rw [hs cnt]; rfl
      rw [hd]; exact ih (cnt + 1) st
    · rw [waitTicks, if_neg h]

/-- The upstream calls issued by Server.get_access_decision for an object
payload: always the single post with the payload fields and the 5 second
timeout, whatever the upstream result. -/
lemma get_access_decision_calls (d : ReqDict) (up : UpstreamResult) :
    (get_access_decision (.dict d) up).2 =
      [{ rfid := pyStr d.rfid, gateIdentifier := d.gate_id,
         direction := d.direction.getD "in", timeout := 5 }] := by
  cases up with
  | netFail e => rfl
  | http status body =>
    by_cases hs : status = 200
    · simp [get_access_decision, hs]
    · cases body with
      | invalidJson => simp [get_access_decision, hs]
      | nonDict => simp [get_access_decision, hs]
      | dict err =>
        cases err with
        | missing => simp [get_access_decision, hs]
        | nonDict => simp [get_access_decision, hs]
        | dict code msg => simp [get_access_decision, hs]

/-- classify_error_code always echoes the gate identifier it is given. -/
lemma classify_error_code_gate_id (c m : String) (g : Option String) :
    (classify_error_code c m g).gate_id = g := by
  unfold classify_error_code
  split_ifs <;> rfl

/-- classify_error_code never produces the SERVER_ERROR reason. -/
lemma classify_error_code_reason_ne (c m : String) (g : Option String) :
    (classify_error_code c m g).reason ≠ some "SERVER_ERROR" := by
  unfold classify_error_code
  split_ifs <;> simp

/-! ### Claim theorems -/

/-- C1: For every upstream call result, Server.get_access_decision returns
exactly one AccessOutcome per the decision table and never raises (the
embedding is a total function): transport failure gives ERROR/NETWORK_FAIL;
HTTP 200 gives GRANTED; code USER_BANNED gives DENIED/BANNED;
USER_ALREADY_IN or USER_ALREADY_OUT gives DENIED/DIRECTION_ERROR;
GATE_INACTIVE gives ERROR/GATE_LOCKED; any other or unknown code gives
DENIED/UNKNOWN; and any unexpected internal failure during mapping (a
non-object payload, response body or error field, on which .get raises)
gives ERROR/SERVER_ERROR. -/
theorem decision_mapper_matches_table (d : ReqDict) :
    (∀ e, outSR (.dict d) (.netFail e) = ("ERROR", some "NETWORK_FAIL"))
  ∧ (∀ body, outSR (.dict d) (.http 200 body) = ("GRANTED", none))
  ∧ (∀ s msg, s ≠ 200 →
      outSR (.dict d) (.http s (.dict (.dict (some "USER_BANNED") msg)))
        = ("DENIED", some "BANNED"))
  ∧ (∀ s msg, s ≠ 200 →
      outSR (.dict d) (.http s (.dict (.dict (some "USER_ALREADY_IN") msg)))
        = ("DENIED", some "DIRECTION_ERROR"))
  ∧ (∀ s msg, s ≠ 200 →
      outSR (.dict d) (.http s (.dict (.dict (some "USER_ALREADY_OUT") msg)))
        = ("DENIED", some "DIRECTION_ERROR"))
  ∧ (∀ s msg, s ≠ 200 →
      outSR (.dict d) (.http s (.dict (.dict (some "GATE_INACTIVE") msg)))
        = ("ERROR", some "GATE_LOCKED"))
  ∧ (∀ s msg c, s ≠ 200 → c ≠ "USER_BANNED" → c ≠ "USER_ALREADY_IN" →
      c ≠ "USER_ALREADY_OUT" → c ≠ "GATE_INACTIVE" →
      outSR (.dict d) (.http s (.dict (.dict (some c) msg)))
        = ("DENIED", some "UNKNOWN"))
  ∧ (∀ s, s ≠ 200 →
      outSR (.dict d) (.http s .invalidJson) = ("DENIED", some "UNKNOWN"))
  ∧ (∀ s, s ≠ 200 →
      outSR (.dict d) (.http s (.dict .missing)) = ("DENIED", some "UNKNOWN"))
  ∧ (∀ s msg, s ≠ 200 →
      outSR (.dict d) (.http s (.dict (.dict none msg)))
        = ("DENIED", some "UNKNOWN"))
  ∧ (∀ s, s ≠ 200 →
      outSR (.dict d) (.http s .nonDict) = ("ERROR", some "SERVER_ERROR"))
  ∧ (∀ s, s ≠ 200 →
      outSR (.dict d) (.http s (.dict .nonDict))
        = ("ERROR", some "SERVER_ERROR"))
  ∧ (∀ up, outSR .nonDict up = ("ERROR", some "SERVER_ERROR")) := by
  refine ⟨?_, ?_, ?_, ?_, ?_, ?_, ?_, ?_, ?_, ?_, ?_, ?_, ?_⟩
  · intro e; rfl
  · intro body; simp [outSR, get_access_decision]
  · intro s msg hs
    simp [outSR, get_access_decision, classify_error_code, hs]
  · intro s msg hs
    simp [outSR, get_access_decision, classify_error_code, hs]
  · intro s msg hs
    simp [outSR, get_access_decision, classify_error_code, hs]
  · intro s msg hs
    simp [outSR, get_access_decision, classify_error_code, hs]
  · intro s msg c hs h1 h2 h3 h4
    simp [outSR, get_access_decision, classify_error_code, hs, h1, h2, h3, h4]
  · intro s hs
    simp [outSR, get_access_decision, classify_error_code, hs]
  · intro s hs
    simp [outSR, get_access_decision, classify_error_code, hs]
  · intro s msg hs
    simp [outSR, get_access_decision, classify_error_code, hs]
  · intro s hs
    simp [outSR, get_access_decision, serverErrorOutcome, hs]
  · intro s hs
    simp [outSR, get_access_decision, serverErrorOutcome, hs]
  · intro up; cases up <;> rfl

/-- Witness for C1 at a concrete banned user and HTTP 403. -/
theorem decision_mapper_matches_table_witness :
    outSR (.dict ⟨some "A1", some "G1", some "in"⟩)
        (.http 403 (.dict (.dict (some "USER_BANNED") none)))
      = ("DENIED", some "BANNED") :=
  (decision_mapper_matches_table
    ⟨some "A1", some "G1", some "in"⟩).2.2.1 403 none (by decide)

/-- C8: For each received AccessRequest (an object payload), the decision
service issues exactly one upstream call, with the 5 second timeout,
carrying the token, gate identifier and direction; a failed or timed-out
call yields ERROR/NETWORK_FAIL and the call list still has length one, so
it is never retried. -/
theorem single_upstream_call_no_retry (d : ReqDict) (up : UpstreamResult) :
    (get_access_decision (.dict d) up).2 =
      [{ rfid := pyStr d.rfid, gateIdentifier := d.gate_id,
         direction := d.direction.getD "in", timeout := 5 }]
  ∧ (∀ e, outSR (.dict d) (.netFail e) = ("ERROR", some "NETWORK_FAIL")) :=
  ⟨get_access_decision_calls d up, fun _ => rfl⟩

/-- C9 counterexample: the request with rfid A1, gate_id the empty string
and direction in, whose upstream 500 response body is valid JSON but not
an object, is mapped through the internal-failure branch, and the
published SERVER_ERROR outcome does not carry the gate_id of the
originating request. -/
theorem gate_id_echo_counterexample :
    (get_access_decision (.dict ⟨some "A1", some "", some "in"⟩)
        (.http 500 .nonDict)).1.gate_id ≠ some "" := by
  decide

/-- C9 amended: every outcome published by the decision service echoes the
gate identifier of the originating request, except the internal-failure
(SERVER_ERROR) branch, which includes gate_id only when the gate
identifier of the request is present and non-empty and omits the field
otherwise. -/
theorem gate_id_echo_amended (d : ReqDict) (up : UpstreamResult) :
    ((get_access_decision (.dict d) up).1.reason ≠ some "SERVER_ERROR" →
        (get_access_decision (.dict d) up).1.gate_id = d.gate_id)
  ∧ ((get_access_decision (.dict d) up).1.reason = some "SERVER_ERROR" →
        (get_access_decision (.dict d) up).1.gate_id =
          if truthy d.gate_id then d.gate_id else none) := by
  cases up with
  | netFail e => exact ⟨fun _ => rfl, fun h => by simp [get_access_decision] at h⟩
  | http status body =>
    by_cases hs : status = 200
    · subst hs
      constructor
      · intro _; simp [get_access_decision]
      · intro h; simp [get_access_decision] at h
    · cases body with
      | invalidJson =>
        constructor
        · intro _
          simp [get_access_decision, hs, classify_error_code_gate_id]
        · intro h
          exact absurd (by simpa [get_access_decision, hs] using h)
            (classify_error_code_reason_ne _ _ _)
      | nonDict =>
        constructor
        · intro h
          exact absurd (by simp [get_access_decision, hs, serverErrorOutcome]) h
        · intro _
          simp [get_access_decision, hs, serverErrorOutcome]
      | dict err =>
        cases err with
        | missing =>
          constructor
          · intro _
            simp [get_access_decision, hs, classify_error_code_gate_id]
          · intro h
            exact absurd (by simpa [get_access_decision, hs] using h)
              (classify_error_code_reason_ne _ _ _)
        | nonDict =>
          constructor
          · intro h
            exact absurd (by simp [get_access_decision, hs, serverErrorOutcome]) h
          · intro _
            simp [get_access_decision, hs, serverErrorOutcome]
        | dict code msg =>
          constructor
          · intro _
            simp [get_access_decision, hs, classify_error_code_gate_id]
          · intro h
            exact absurd (by simpa [get_access_decision, hs] using h)
              (classify_error_code_reason_ne _ _ _)

/-- Witness for the amended C9: a network failure echoes the concrete gate
identifier G1. -/
theorem gate_id_echo_amended_witness :
    (get_access_decision (.dict ⟨some "A1", some "G1", some "in"⟩)
        (.netFail "refused")).1.gate_id = some "G1" :=
  (gate_id_echo_amended ⟨some "A1", some "G1", some "in"⟩
    (.netFail "refused")).1 (by decide)

/-- C10: an object payload without the direction field is not dropped: the
upstream call is still issued, with the direction defaulted to in, and
the service still publishes exactly one outcome for it. -/
theorem missing_direction_defaults_to_in (rfid gid : Option String)
    (up : UpstreamResult) :
    (get_access_decision (.dict ⟨rfid, gid, none⟩) up).2 =
      [{ rfid := pyStr rfid, gateIdentifier := gid,
         direction := "in", timeout := 5 }]
  ∧ (server_on_message (.json (.dict ⟨rfid, gid, none⟩)) up).length = 1 :=
  ⟨get_access_decision_calls ⟨rfid, gid, none⟩ up, rfl⟩

/-- C4: the reason-to-message table of AccessGate.handle_result is total:
BANNED maps to the banned message, DIRECTION_ERROR to the already in/out
message, the defaulted absent reason and every other string map to the
generic denial message. -/
theorem reason_message_mapping_total (r : String) :
    reasonMessage "BANNED" = "USER BANNED"
  ∧ reasonMessage "DIRECTION_ERROR" = "ALREADY IN/OUT"
  ∧ reasonMessage ((none : Option String).getD "") = "ACCESS DENIED"
  ∧ (r ≠ "BANNED" → r ≠ "DIRECTION_ERROR" →
      reasonMessage r = "ACCESS DENIED") := by
  refine ⟨by decide, by decide, by decide, ?_⟩
  intro h1 h2
  simp [reasonMessage, h1, h2]

/-- Witness for C4 at an unknown future reason string. -/
theorem reason_message_mapping_total_witness :
    reasonMessage "SOME_FUTURE_REASON" = "ACCESS DENIED" :=
  (reason_message_mapping_total "SOME_FUTURE_REASON").2.2.2
    (by decide) (by decide)

/-- C5: a payload that fails to decode is dropped on both sides: the
service publishes no reply for it and its handler returns normally, and
the gate message handler leaves the gate state unchanged; both embeddings
are total functions, so neither handler can crash its state machine. -/
theorem malformed_payloads_dropped (up : UpstreamResult) (st : GateState) :
    server_on_message .invalidJson up = []
  ∧ on_mqtt_message st .malformed = st :=
  ⟨rfl, rfl⟩

/-- C2 (code bug): the at-most-one-outcome-per-exchange invariant fails
on gate.py. Under the doubleOutcomeSched interleaving, whose scheduling
choices all correspond to real timings (reply delivered 2.5 s into the
5 s window, listener dwell holding waiting_for_server true until about
5.6 s), one exchange records two RESULT_DISPLAY outcomes: the delivered
GRANTED and then the locally synthesized Timeout, because the foreground
loop at lines 130 and 134 still sees the flag that handle_result clears
only at line 160, after the dwell. -/
theorem exchange_processes_two_outcomes_trace :
    (runSched exchangeStart doubleOutcomeSched).results
      = [(some "GRANTED", ""), (some "ERROR", "Timeout")] := by
  decide

/-- C7 (code bug): a response delivered after the timeout has fired,
while the gate is already rendering RESULT_DISPLAY, is handled rather
than discarded. Under lateArrivalSched (no reply in the window, timeout
outcome rendered at 5 s, the late NETWORK_FAIL reply of the service
arriving about 5.1 s), the line 171 check still sees
waiting_for_server = true, because the foreground handle_result clears it
only when its dwell ends at about 8.6 s, so the listener renders the late
outcome as a second RESULT_DISPLAY transition. -/
theorem late_message_handled_after_timeout_trace :
    (runSched exchangeStart lateArrivalSched).results
        = [(some "ERROR", "Timeout"), (some "ERROR", "NETWORK_FAIL")]
    ∧ (runSched exchangeStart lateArrivalSched).waiting_for_server = true := by
  decide

/-- C3: if no AccessOutcome is delivered during the 50-tick (5 second)
wait window, process_access synthesizes the local outcome
(ERROR, Timeout) via handle_result, records exactly that transition to
RESULT_DISPLAY, clears the waiting flag, and still publishes the request
it built, with no message from the service involved. -/
theorem gate_timeout_synthesizes_timeout_outcome (st : GateState)
    (rfid : Nat) (gid : Option String) (dir : String)
    (sched : Nat → List InMsg) (hs : ∀ k, sched k = []) :
    (process_access st rfid gid dir sched).2.results
        = st.results ++ [(some "ERROR", "Timeout")]
  ∧ (process_access st rfid gid dir sched).2.waiting_for_server = false
  ∧ (process_access st rfid gid dir sched).1
      = { rfid := rfid, gate_id := gid, direction := dir } := by
  unfold process_access
  rw [waitTicks_empty_sched sched hs]
  exact ⟨rfl, rfl, rfl⟩

/-- Witness for C3 with the empty delivery schedule. -/
theorem gate_timeout_synthesizes_timeout_outcome_witness :
    (process_access ⟨false, []⟩ 7 (some "G1") "in" (fun _ => [])).2.results
      = [(some "ERROR", "Timeout")] :=
  (gate_timeout_synthesizes_timeout_outcome ⟨false, []⟩ 7 (some "G1") "in"
    (fun _ => []) (fun _ => rfl)).1

/-- C6 (code bug): the except of gate.py lines 207-208 does catch an
exception raised inside the exchange and the main loop does continue
(here the foreground thread is back at the top of the while loop,
fg = idleLoop), but the state machine does not resume at IDLE: an
exception raised after line 117 (for example in update_display at
line 118) leaves waiting_for_server true, nothing ever resets it, and
under errorLeakSched a stray broadcast response delivered while the gate
sits in the IDLE loop passes the line 171 check and is rendered as an
outcome of an exchange that no longer exists. -/
theorem caught_error_leaves_waiting_flag_trace :
    (runSched exchangeStart errorLeakSched).fg = .idleLoop
    ∧ (runSched exchangeStart errorLeakSched).waiting_for_server = true
    ∧ (runSched exchangeStart errorLeakSched).results
        = [(some "GRANTED", "")] := by
  decide

end IotGate
